import Mathlib

/-!
Verification of the insights-results-aggregator storage, content-parsing and
service-lifecycle behaviour, over a shallow embedding of the Go sources.

The embedded functions keep the names of the Go functions they are translated
from (`storage/rule_feedback.go`, `storage/rule_toggle.go`, `content/content.go`
and the service entry point).  The report-table operations
(`WriteReportForCluster`, `ReadReportForCluster`,
`ReadReportForClusterByClusterName`) and the DB-driver constants live in a
source file that is not part of the provided sources (only their tests and
callers are); they are modelled from the specification, as marked on their
doc comments.
-/

set_option maxRecDepth 10000

deriving instance DecidableEq for Except

namespace Aggregator

/-- Left-pad the decimal representation of a natural number with zeros
to the given width (used for RFC 3339 rendering). -/
def padNat (width n : Nat) : String :=
  let s := toString n
  String.mk (List.replicate (width - s.length) '0') ++ s

/-- A calendar timestamp with second precision.  The spec serializes
timestamps as RFC 3339 strings; `time.Time` values are compared as instants. -/
structure Timestamp where
  year : Nat
  month : Nat
  day : Nat
  hour : Nat
  minute : Nat
  second : Nat
deriving DecidableEq, Repr

/-- Total-order key of a timestamp: the fields packed positionally, so that
comparison of keys agrees with chronological comparison of valid timestamps. -/
def Timestamp.key (t : Timestamp) : Nat :=
  ((((t.year * 13 + t.month) * 32 + t.day) * 24 + t.hour) * 60 + t.minute) * 60 + t.second

/-- RFC 3339 (UTC) rendering of a timestamp, as produced by
`time.Time.Format(time.RFC3339)` for UTC instants. -/
def rfc3339 (t : Timestamp) : String :=
  padNat 4 t.year ++ "-" ++ padNat 2 t.month ++ "-" ++ padNat 2 t.day ++ "T" ++
    padNat 2 t.hour ++ ":" ++ padNat 2 t.minute ++ ":" ++ padNat 2 t.second ++ "Z"

/-- The discriminated storage errors of the spec's error taxonomy:
`ItemNotFoundError` carries the identifier of the missing item
(`storage/rule_feedback.go`), the driver-unsupported error carries the driver
value, and SQL-level unique-constraint violations are opaque DB errors. -/
inductive StorageError where
  | itemNotFound (itemID : String)
  | driverNotSupported (driver : Int)
  | uniqueConstraintViolation
deriving DecidableEq, Repr

/-- Modelled from the spec: the DB-driver enumeration is declared in
`storage.go`, which is not among the provided sources.  The known set is
sqlite3, postgres and general; they are iota-style integer constants, and any
other integer (the tests use -1) is outside the known set. -/
def DBDriverSQLite3 : Int := 0

/-- Modelled from the spec: the postgres driver constant (see `DBDriverSQLite3`). -/
def DBDriverPostgres : Int := 1

/-- Modelled from the spec: the general-SQL driver constant (see `DBDriverSQLite3`). -/
def DBDriverGeneral : Int := 2

/-- Whether a driver value is inside the known set
(the three cases of the switch in `constructUpsertClusterRuleUserFeedback`). -/
def knownDBDriver (d : Int) : Bool :=
  decide (d = DBDriverSQLite3) || decide (d = DBDriverPostgres) || decide (d = DBDriverGeneral)

/-- Association-list lookup: the value stored under the first entry
with the given key (models a SQL SELECT by primary key). -/
def lookupA {κ α : Type} [DecidableEq κ] : List (κ × α) → κ → Option α
  | [], _ => none
  | e :: rest, k => if e.1 = k then some e.2 else lookupA rest k

/-- Association-list update: overwrite the value of every entry with the given
key, leaving keys and all other entries unchanged (models a SQL UPDATE by
primary key). -/
def setA {κ α : Type} [DecidableEq κ] : List (κ × α) → κ → α → List (κ × α)
  | [], _, _ => []
  | e :: rest, k, v => (if e.1 = k then (e.1, v) else e) :: setA rest k v

theorem lookupA_cons_self {κ α : Type} [DecidableEq κ] (db : List (κ × α)) (k : κ) (v : α) :
    lookupA ((k, v) :: db) k = some v := by
  simp [lookupA]

theorem lookupA_setA {κ α : Type} [DecidableEq κ] (db : List (κ × α)) (k : κ) (v : α) :
    lookupA (setA db k v) k = (lookupA db k).map (fun _ => v) := by
  induction db with
  | nil => simp [lookupA, setA]
  | cons e rest ih =>
    by_cases h : e.1 = k
    · simp [lookupA, setA, h]
    · simp [lookupA, setA, h, ih]

/-- A row of the `report` table: *(report, reported_at, last_checked_at)*,
keyed externally by *(org_id, cluster)*. -/
structure ReportRow where
  report : String
  reportedAt : Timestamp
  lastCheckedAt : Timestamp
deriving DecidableEq, Repr

/-- The `report` table: rows keyed by *(org_id, cluster)*. -/
abbrev ReportDB := List ((Nat × String) × ReportRow)

/-- Modelled from the spec: `WriteReportForCluster` is implemented in
`storage.go`, which is not among the provided sources (only its tests are).
Per spec section 4.B, it is a freshness-guarded upsert: an unknown driver
fails with the driver-unsupported error; otherwise the current
`last_checked_at` for the key is read, an INSERT is executed when no row
exists, an UPDATE guarded by `last_checked_at <= new` when a row exists, and a
stale write (guard false, zero rows affected) is a successful no-op. -/
def WriteReportForCluster (driver : Int) (db : ReportDB) (org : Nat) (cluster : String)
    (report : String) (now lastCheckedAt : Timestamp) : Except StorageError ReportDB :=
  if knownDBDriver driver then
    match lookupA db (org, cluster) with
    | none => .ok (((org, cluster), ⟨report, now, lastCheckedAt⟩) :: db)
    | some row =>
      if row.lastCheckedAt.key ≤ lastCheckedAt.key then
        .ok (setA db (org, cluster) ⟨report, now, lastCheckedAt⟩)
      else
        .ok db
  else
    .error (.driverNotSupported driver)

/-- Modelled from the spec: `ReadReportForCluster` is implemented in
`storage.go`, which is not among the provided sources.  Per spec section 4.B
and the tests, it returns the stored report together with `last_checked_at`
formatted as an RFC 3339 string, or an `ItemNotFoundError` carrying the
"org/cluster" identifier when no row exists for the pair. -/
def ReadReportForCluster (db : ReportDB) (org : Nat) (cluster : String) :
    Except StorageError (String × String) :=
  match lookupA db (org, cluster) with
  | none => .error (.itemNotFound (toString org ++ "/" ++ cluster))
  | some row => .ok (row.report, rfc3339 row.lastCheckedAt)

/-- First row of the `report` table whose cluster column matches
(the cluster column is unique, so at most one row matches in a DB reachable
by the storage operations). -/
def lookupReportByCluster : ReportDB → String → Option ((Nat × String) × ReportRow)
  | [], _ => none
  | e :: rest, cluster => if e.1.2 = cluster then some e else lookupReportByCluster rest cluster

/-- Modelled from the spec: `ReadReportForClusterByClusterName` is implemented
in `storage.go`, which is not among the provided sources.  Same contract as
`ReadReportForCluster` but unscoped by org; the not-found error carries the
cluster name. -/
def ReadReportForClusterByClusterName (db : ReportDB) (cluster : String) :
    Except StorageError (String × String) :=
  match lookupReportByCluster db cluster with
  | none => .error (.itemNotFound cluster)
  | some e => .ok (e.2.report, rfc3339 e.2.lastCheckedAt)

/-- C1: For every (org, cluster) key, the stored `last_checked_at` is
monotonically non-decreasing across successful calls to
`WriteReportForCluster`; moreover for two writes W1, W2 on the same key with
W1.last\_checked\_at > W2.last\_checked\_at, applied in either order starting
from a state with no row for the key, the stored row afterwards carries
W1's data (so the stored `last_checked_at` equals W1.last\_checked\_at) and the
stale write returns success as a no-op. -/
theorem claim_C1_freshness_monotonic :
    (∀ driver db org cluster rep now t db2 row0 row1,
        lookupA db (org, cluster) = some row0 →
        WriteReportForCluster driver db org cluster rep now t = .ok db2 →
        lookupA db2 (org, cluster) = some row1 →
        row0.lastCheckedAt.key ≤ row1.lastCheckedAt.key) ∧
    (∀ driver org cluster rep1 rep2 now1 now2 t1 t2,
        knownDBDriver driver = true →
        Timestamp.key t2 < Timestamp.key t1 →
        (WriteReportForCluster driver [] org cluster rep1 now1 t1 =
            .ok [((org, cluster), ⟨rep1, now1, t1⟩)] ∧
          WriteReportForCluster driver [((org, cluster), ⟨rep1, now1, t1⟩)]
              org cluster rep2 now2 t2 =
            .ok [((org, cluster), ⟨rep1, now1, t1⟩)]) ∧
        (WriteReportForCluster driver [] org cluster rep2 now2 t2 =
            .ok [((org, cluster), ⟨rep2, now2, t2⟩)] ∧
          WriteReportForCluster driver [((org, cluster), ⟨rep2, now2, t2⟩)]
              org cluster rep1 now1 t1 =
            .ok [((org, cluster), ⟨rep1, now1, t1⟩)])) := by
  constructor
  · intro driver db org cluster rep now t db2 row0 row1 hlook hw hlook2
    unfold WriteReportForCluster at hw
    by_cases hd : knownDBDriver driver = true
    · rw [if_pos hd, hlook] at hw
      dsimp only at hw
      by_cases hle : row0.lastCheckedAt.key ≤ t.key
      · rw [if_pos hle] at hw
        cases hw
        rw [lookupA_setA, hlook] at hlook2
        cases hlook2
        exact hle
      · rw [if_neg hle] at hw
        cases hw
        rw [hlook] at hlook2
        cases hlook2
        exact Nat.le_refl _
    · rw [if_neg hd] at hw
      cases hw
  · intro driver org cluster rep1 rep2 now1 now2 t1 t2 hd hlt
    have hle : t2.key ≤ t1.key := Nat.le_of_lt hlt
    have hnle : ¬ t1.key ≤ t2.key := Nat.not_le_of_lt hlt
    refine ⟨⟨?_, ?_⟩, ⟨?_, ?_⟩⟩
    · simp [WriteReportForCluster, lookupA, hd]
    · simp [WriteReportForCluster, lookupA, hd, hnle]
    · simp [WriteReportForCluster, lookupA, hd]
    · simp [WriteReportForCluster, lookupA, setA, hd, hle]

/-- Witness for C1 at concrete inputs: the sqlite3 driver, key (1, "c"),
timestamps 2020-01-02 and 2020-01-01. -/
theorem claim_C1_witness :
    (knownDBDriver DBDriverSQLite3 = true ∧
      Timestamp.key ⟨2020, 1, 1, 0, 0, 0⟩ < Timestamp.key ⟨2020, 1, 2, 0, 0, 0⟩) ∧
    (lookupA [((1, "c"), (⟨"r0", ⟨2020, 1, 1, 0, 0, 0⟩, ⟨2020, 1, 1, 0, 0, 0⟩⟩ : ReportRow))]
        (1, "c") = some ⟨"r0", ⟨2020, 1, 1, 0, 0, 0⟩, ⟨2020, 1, 1, 0, 0, 0⟩⟩ ∧
      WriteReportForCluster DBDriverSQLite3
          [((1, "c"), ⟨"r0", ⟨2020, 1, 1, 0, 0, 0⟩, ⟨2020, 1, 1, 0, 0, 0⟩⟩)]
          1 "c" "r1" ⟨2020, 1, 2, 0, 0, 0⟩ ⟨2020, 1, 2, 0, 0, 0⟩ =
        .ok [((1, "c"), ⟨"r1", ⟨2020, 1, 2, 0, 0, 0⟩, ⟨2020, 1, 2, 0, 0, 0⟩⟩)] ∧
      lookupA [((1, "c"), (⟨"r1", ⟨2020, 1, 2, 0, 0, 0⟩, ⟨2020, 1, 2, 0, 0, 0⟩⟩ : ReportRow))]
        (1, "c") = some ⟨"r1", ⟨2020, 1, 2, 0, 0, 0⟩, ⟨2020, 1, 2, 0, 0, 0⟩⟩ ∧
      Timestamp.key ⟨2020, 1, 1, 0, 0, 0⟩ ≤ Timestamp.key ⟨2020, 1, 2, 0, 0, 0⟩) ∧
    (WriteReportForCluster DBDriverSQLite3 [] 1 "c" "r1" ⟨2020, 1, 2, 0, 0, 0⟩
          ⟨2020, 1, 2, 0, 0, 0⟩ =
        .ok [((1, "c"), ⟨"r1", ⟨2020, 1, 2, 0, 0, 0⟩, ⟨2020, 1, 2, 0, 0, 0⟩⟩)] ∧
      WriteReportForCluster DBDriverSQLite3
          [((1, "c"), ⟨"r1", ⟨2020, 1, 2, 0, 0, 0⟩, ⟨2020, 1, 2, 0, 0, 0⟩⟩)]
          1 "c" "r2" ⟨2020, 1, 3, 0, 0, 0⟩ ⟨2020, 1, 1, 0, 0, 0⟩ =
        .ok [((1, "c"), ⟨"r1", ⟨2020, 1, 2, 0, 0, 0⟩, ⟨2020, 1, 2, 0, 0, 0⟩⟩)]) := by
  refine ⟨⟨by decide, by decide⟩, ⟨by decide, by decide, by decide, ?_⟩, ?_⟩
  · exact claim_C1_freshness_monotonic.1 DBDriverSQLite3
      [((1, "c"), ⟨"r0", ⟨2020, 1, 1, 0, 0, 0⟩, ⟨2020, 1, 1, 0, 0, 0⟩⟩)]
      1 "c" "r1" ⟨2020, 1, 2, 0, 0, 0⟩ ⟨2020, 1, 2, 0, 0, 0⟩
      [((1, "c"), ⟨"r1", ⟨2020, 1, 2, 0, 0, 0⟩, ⟨2020, 1, 2, 0, 0, 0⟩⟩)]
      ⟨"r0", ⟨2020, 1, 1, 0, 0, 0⟩, ⟨2020, 1, 1, 0, 0, 0⟩⟩
      ⟨"r1", ⟨2020, 1, 2, 0, 0, 0⟩, ⟨2020, 1, 2, 0, 0, 0⟩⟩
      (by decide) (by decide) (by decide)
  · exact ((claim_C1_freshness_monotonic.2 DBDriverSQLite3 1 "c" "r1" "r2"
      ⟨2020, 1, 2, 0, 0, 0⟩ ⟨2020, 1, 3, 0, 0, 0⟩ ⟨2020, 1, 2, 0, 0, 0⟩ ⟨2020, 1, 1, 0, 0, 0⟩
      (by decide) (by decide)).1)

/-- `UserVote` is a type for a user's vote (`storage/rule_feedback.go`):
an integer-backed type with three declared constants. -/
abbrev UserVote := Int

/-- `UserVoteDislike` shows the user's dislike. -/
def UserVoteDislike : UserVote := -1

/-- `UserVoteNone` shows no vote from the user. -/
def UserVoteNone : UserVote := 0

/-- `UserVoteLike` shows the user's like. -/
def UserVoteLike : UserVote := 1

/-- `UserFeedbackOnRule` shows a user's feedback on a rule
(`storage/rule_feedback.go`). -/
structure UserFeedbackOnRule where
  clusterID : String
  ruleID : String
  userID : String
  message : String
  userVote : UserVote
  addedAt : Timestamp
  updatedAt : Timestamp
deriving DecidableEq, Repr

/-- The `cluster_rule_user_feedback` table: rows keyed by
*(cluster_id, rule_id, user_id)*. -/
abbrev FeedbackDB := List ((String × String × String) × UserFeedbackOnRule)

/-- The column-update list built by `constructUpsertClusterRuleUserFeedback`:
`user_vote = $4` when the vote is targeted, `message = $7` when the message
is targeted. -/
def upsertFeedbackUpdates (updateVote updateMessage : Bool) : List String :=
  (if updateVote then ["user_vote = $4"] else []) ++
    (if updateMessage then ["message = $7"] else [])

/-- `constructUpsertClusterRuleUserFeedback` (`storage/rule_feedback.go`):
for the three known drivers it builds an INSERT of the seven columns,
followed, when at least one column is targeted, by an ON CONFLICT clause
updating the targeted columns and `updated_at`; any other driver yields the
driver-unsupported error. -/
def constructUpsertClusterRuleUserFeedback (driver : Int) (updateVote updateMessage : Bool) :
    Except StorageError String :=
  if knownDBDriver driver then
    if 0 < (upsertFeedbackUpdates updateVote updateMessage).length then
      .ok ("INSERT INTO cluster_rule_user_feedback (cluster_id, rule_id, user_id, user_vote, added_at, updated_at, message) VALUES ($1, $2, $3, $4, $5, $6, $7)"
        ++ " ON CONFLICT (cluster_id, rule_id, user_id) DO UPDATE SET "
        ++ String.intercalate ", " (upsertFeedbackUpdates updateVote updateMessage ++ ["updated_at = $6"]))
    else
      .ok "INSERT INTO cluster_rule_user_feedback (cluster_id, rule_id, user_id, user_vote, added_at, updated_at, message) VALUES ($1, $2, $3, $4, $5, $6, $7)"
  else
    .error (.driverNotSupported driver)

/-- Semantics of executing the statement built by
`constructUpsertClusterRuleUserFeedback` with arguments
($1..$7) = (cluster, rule, user, vote, added_at, updated_at, message):
a plain INSERT of all seven values when no row with the key exists; when a row
exists, the ON CONFLICT clause overwrites exactly the targeted columns plus
`updated_at`, while a plain INSERT without a conflict clause violates the
primary-key constraint. -/
def execUpsertClusterRuleUserFeedback (db : FeedbackDB) (clusterID ruleID userID : String)
    (userVote : UserVote) (addedAt updatedAt : Timestamp) (message : String)
    (updateVote updateMessage : Bool) : Except StorageError FeedbackDB :=
  match lookupA db (clusterID, ruleID, userID) with
  | none =>
    .ok (((clusterID, ruleID, userID),
      ⟨clusterID, ruleID, userID, message, userVote, addedAt, updatedAt⟩) :: db)
  | some row =>
    if updateVote || updateMessage then
      .ok (setA db (clusterID, ruleID, userID)
        { row with
            userVote := if updateVote then userVote else row.userVote
            message := if updateMessage then message else row.message
            updatedAt := updatedAt })
    else
      .error .uniqueConstraintViolation

/-- `addOrUpdateUserFeedbackOnRuleForCluster` (`storage/rule_feedback.go`):
updates the vote and the message only when the respective pointers are
non-nil; the untargeted column takes its zero value on insert.  Both
timestamp arguments receive the same `now`. -/
def addOrUpdateUserFeedbackOnRuleForCluster (driver : Int) (db : FeedbackDB)
    (clusterID ruleID userID : String) (userVotePtr : Option UserVote)
    (messagePtr : Option String) (now : Timestamp) : Except StorageError FeedbackDB :=
  match constructUpsertClusterRuleUserFeedback driver userVotePtr.isSome messagePtr.isSome with
  | .error err => .error err
  | .ok _query =>
    execUpsertClusterRuleUserFeedback db clusterID ruleID userID
      (userVotePtr.getD UserVoteNone) now now (messagePtr.getD "")
      userVotePtr.isSome messagePtr.isSome

/-- `VoteOnRule` likes or dislikes a rule for a cluster by a user
(`storage/rule_feedback.go`): the upsert targeting only the vote column. -/
def VoteOnRule (driver : Int) (db : FeedbackDB) (clusterID ruleID userID : String)
    (userVote : UserVote) (now : Timestamp) : Except StorageError FeedbackDB :=
  addOrUpdateUserFeedbackOnRuleForCluster driver db clusterID ruleID userID
    (some userVote) none now

/-- `AddOrUpdateFeedbackOnRule` (`storage/rule_feedback.go`): the upsert
targeting only the message column. -/
def AddOrUpdateFeedbackOnRule (driver : Int) (db : FeedbackDB)
    (clusterID ruleID userID : String) (message : String) (now : Timestamp) :
    Except StorageError FeedbackDB :=
  addOrUpdateUserFeedbackOnRuleForCluster driver db clusterID ruleID userID
    none (some message) now

/-- `GetUserFeedbackOnRule` (`storage/rule_feedback.go`): SELECT by the
*(cluster_id, rule_id, user_id)* key; no row yields an `ItemNotFoundError`
whose item identifier is the "cluster/rule/user" triple. -/
def GetUserFeedbackOnRule (db : FeedbackDB) (clusterID ruleID userID : String) :
    Except StorageError UserFeedbackOnRule :=
  match lookupA db (clusterID, ruleID, userID) with
  | none => .error (.itemNotFound (clusterID ++ "/" ++ ruleID ++ "/" ++ userID))
  | some feedback => .ok feedback

theorem constructUpsert_known_ok (driver : Int) (uv um : Bool)
    (hd : knownDBDriver driver = true) :
    ∃ q, constructUpsertClusterRuleUserFeedback driver uv um = .ok q := by
  unfold constructUpsertClusterRuleUserFeedback
  rw [if_pos hd]
  split <;> exact ⟨_, rfl⟩

theorem addOrUpdate_known_eq (driver : Int) (db : FeedbackDB) (c r u : String)
    (votePtr : Option UserVote) (msgPtr : Option String) (now : Timestamp)
    (hd : knownDBDriver driver = true)
    (hsome : votePtr.isSome = true ∨ msgPtr.isSome = true) :
    addOrUpdateUserFeedbackOnRuleForCluster driver db c r u votePtr msgPtr now =
      .ok (match lookupA db (c, r, u) with
        | none =>
          ((c, r, u), ⟨c, r, u, msgPtr.getD "", votePtr.getD UserVoteNone, now, now⟩) :: db
        | some row =>
          setA db (c, r, u)
            { row with
                userVote := votePtr.getD row.userVote
                message := msgPtr.getD row.message
                updatedAt := now }) := by
  obtain ⟨q, hq⟩ := constructUpsert_known_ok driver votePtr.isSome msgPtr.isSome hd
  unfold addOrUpdateUserFeedbackOnRuleForCluster
  rw [hq]
  cases hlook : lookupA db (c, r, u) with
  | none => simp [execUpsertClusterRuleUserFeedback, hlook]
  | some row =>
    cases votePtr with
    | none =>
      cases msgPtr with
      | none => simp at hsome
      | some m => simp [execUpsertClusterRuleUserFeedback, hlook]
    | some v =>
      cases msgPtr with
      | none => simp [execUpsertClusterRuleUserFeedback, hlook]
      | some m => simp [execUpsertClusterRuleUserFeedback, hlook]

theorem addOrUpdate_lookup (driver : Int) (db : FeedbackDB) (c r u : String)
    (votePtr : Option UserVote) (msgPtr : Option String) (now : Timestamp)
    (hd : knownDBDriver driver = true)
    (hsome : votePtr.isSome = true ∨ msgPtr.isSome = true) :
    ∃ db1,
      addOrUpdateUserFeedbackOnRuleForCluster driver db c r u votePtr msgPtr now = .ok db1 ∧
      lookupA db1 (c, r, u) =
        some (match lookupA db (c, r, u) with
          | none => ⟨c, r, u, msgPtr.getD "", votePtr.getD UserVoteNone, now, now⟩
          | some row =>
            { row with
                userVote := votePtr.getD row.userVote
                message := msgPtr.getD row.message
                updatedAt := now }) := by
  refine ⟨_, addOrUpdate_known_eq driver db c r u votePtr msgPtr now hd hsome, ?_⟩
  cases hlook : lookupA db (c, r, u) with
  | none =>
    exact lookupA_cons_self db (c, r, u) _
  | some row =>
    dsimp only
    rw [lookupA_setA, hlook]
    rfl

/-- C2: for every cluster, rule, user, vote v and message m, after both
`VoteOnRule` and `AddOrUpdateFeedbackOnRule` have been applied in either
order, `GetUserFeedbackOnRule` yields vote = v and message = m; moreover a
vote call preserves a previously stored message and a message call preserves
a previously stored vote. -/
theorem claim_C2_feedback_partial_upsert
    (driver : Int) (db : FeedbackDB) (c r u : String) (v : UserVote) (m : String)
    (now1 now2 : Timestamp) (hd : knownDBDriver driver = true) :
    (∃ db1 db2,
        VoteOnRule driver db c r u v now1 = .ok db1 ∧
        AddOrUpdateFeedbackOnRule driver db1 c r u m now2 = .ok db2 ∧
        (GetUserFeedbackOnRule db2 c r u).map (fun row => (row.userVote, row.message)) =
          .ok (v, m)) ∧
    (∃ db1 db2,
        AddOrUpdateFeedbackOnRule driver db c r u m now1 = .ok db1 ∧
        VoteOnRule driver db1 c r u v now2 = .ok db2 ∧
        (GetUserFeedbackOnRule db2 c r u).map (fun row => (row.userVote, row.message)) =
          .ok (v, m)) ∧
    (∀ row0, lookupA db (c, r, u) = some row0 →
        ∃ db1,
          VoteOnRule driver db c r u v now1 = .ok db1 ∧
          (GetUserFeedbackOnRule db1 c r u).map (fun row => (row.userVote, row.message)) =
            .ok (v, row0.message)) ∧
    (∀ row0, lookupA db (c, r, u) = some row0 →
        ∃ db1,
          AddOrUpdateFeedbackOnRule driver db c r u m now1 = .ok db1 ∧
          (GetUserFeedbackOnRule db1 c r u).map (fun row => (row.userVote, row.message)) =
            .ok (row0.userVote, m)) := by
  refine ⟨?_, ?_, ?_, ?_⟩
  · obtain ⟨db1, hw1, hl1⟩ :=
      addOrUpdate_lookup driver db c r u (some v) none now1 hd (Or.inl rfl)
    obtain ⟨db2, hw2, hl2⟩ :=
      addOrUpdate_lookup driver db1 c r u none (some m) now2 hd (Or.inr rfl)
    rw [hl1] at hl2
    refine ⟨db1, db2, hw1, hw2, ?_⟩
    simp only [GetUserFeedbackOnRule, hl2, Except.map]
    cases hlook : lookupA db (c, r, u) <;> rfl
  · obtain ⟨db1, hw1, hl1⟩ :=
      addOrUpdate_lookup driver db c r u none (some m) now1 hd (Or.inr rfl)
    obtain ⟨db2, hw2, hl2⟩ :=
      addOrUpdate_lookup driver db1 c r u (some v) none now2 hd (Or.inl rfl)
    rw [hl1] at hl2
    refine ⟨db1, db2, hw1, hw2, ?_⟩
    simp only [GetUserFeedbackOnRule, hl2, Except.map]
    cases hlook : lookupA db (c, r, u) <;> rfl
  · intro row0 hlook
    obtain ⟨db1, hw1, hl1⟩ :=
      addOrUpdate_lookup driver db c r u (some v) none now1 hd (Or.inl rfl)
    rw [hlook] at hl1
    refine ⟨db1, hw1, ?_⟩
    simp only [GetUserFeedbackOnRule, hl1, Except.map]
    rfl
  · intro row0 hlook
    obtain ⟨db1, hw1, hl1⟩ :=
      addOrUpdate_lookup driver db c r u none (some m) now1 hd (Or.inr rfl)
    rw [hlook] at hl1
    refine ⟨db1, hw1, ?_⟩
    simp only [GetUserFeedbackOnRule, hl1, Except.map]
    rfl

/-- Witness for C2 at concrete inputs: sqlite3 driver, a database already
holding a row for the key, vote +1 and message "msg". -/
theorem claim_C2_witness :
    knownDBDriver DBDriverSQLite3 = true ∧
    (∃ db1 db2,
        VoteOnRule DBDriverSQLite3
            [(("c", "r", "u"),
              ⟨"c", "r", "u", "old", 0, ⟨2020, 1, 1, 0, 0, 0⟩, ⟨2020, 1, 1, 0, 0, 0⟩⟩)]
            "c" "r" "u" 1 ⟨2020, 1, 2, 0, 0, 0⟩ = .ok db1 ∧
        AddOrUpdateFeedbackOnRule DBDriverSQLite3 db1 "c" "r" "u" "msg"
            ⟨2020, 1, 3, 0, 0, 0⟩ = .ok db2 ∧
        (GetUserFeedbackOnRule db2 "c" "r" "u").map (fun row => (row.userVote, row.message)) =
          .ok (1, "msg")) := by
  refine ⟨by decide, ?_⟩
  exact (claim_C2_feedback_partial_upsert DBDriverSQLite3
    [(("c", "r", "u"),
      ⟨"c", "r", "u", "old", 0, ⟨2020, 1, 1, 0, 0, 0⟩, ⟨2020, 1, 1, 0, 0, 0⟩⟩)]
    "c" "r" "u" 1 "msg" ⟨2020, 1, 2, 0, 0, 0⟩ ⟨2020, 1, 3, 0, 0, 0⟩ (by decide)).1

/-- C5: for a key with no feedback row, `GetUserFeedbackOnRule` returns the
distinguished not-found error carrying the cluster/rule/user identifier, and
returns the stored record otherwise. -/
theorem claim_C5_feedback_not_found (db : FeedbackDB) (c r u : String) :
    (lookupA db (c, r, u) = none →
      GetUserFeedbackOnRule db c r u =
        .error (.itemNotFound (c ++ "/" ++ r ++ "/" ++ u))) ∧
    (∀ row, lookupA db (c, r, u) = some row →
      GetUserFeedbackOnRule db c r u = .ok row) := by
  constructor
  · intro h
    simp [GetUserFeedbackOnRule, h]
  · intro row h
    simp [GetUserFeedbackOnRule, h]

/-- Witness for C5: the empty table yields not-found with the identifier
"c/r/u"; a table holding the row yields that row. -/
theorem claim_C5_witness :
    GetUserFeedbackOnRule [] "c" "r" "u" =
      .error (.itemNotFound ("c" ++ "/" ++ "r" ++ "/" ++ "u")) ∧
    GetUserFeedbackOnRule
        [(("c", "r", "u"),
          ⟨"c", "r", "u", "msg", 1, ⟨2020, 1, 1, 0, 0, 0⟩, ⟨2020, 1, 1, 0, 0, 0⟩⟩)]
        "c" "r" "u" =
      .ok ⟨"c", "r", "u", "msg", 1, ⟨2020, 1, 1, 0, 0, 0⟩, ⟨2020, 1, 1, 0, 0, 0⟩⟩ :=
  ⟨(claim_C5_feedback_not_found [] "c" "r" "u").1 (by decide),
    (claim_C5_feedback_not_found
      [(("c", "r", "u"),
        ⟨"c", "r", "u", "msg", 1, ⟨2020, 1, 1, 0, 0, 0⟩, ⟨2020, 1, 1, 0, 0, 0⟩⟩)]
      "c" "r" "u").2 _ (by decide)⟩

/-- Whether a storage result is the driver-unsupported error. -/
def resultIsDriverNotSupported {α : Type} : Except StorageError α → Bool
  | .error (.driverNotSupported _) => true
  | _ => false

/-- C4: a write (report write or feedback upsert) on a storage whose driver
is outside the known set (sqlite3, postgres, general) fails with the
driver-unsupported error, and no known-driver write returns that error. -/
theorem claim_C4_driver_unsupported :
    (∀ driver db org cluster rep now t,
        driver ≠ DBDriverSQLite3 → driver ≠ DBDriverPostgres → driver ≠ DBDriverGeneral →
        WriteReportForCluster driver db org cluster rep now t =
          .error (.driverNotSupported driver)) ∧
    (∀ driver uv um,
        driver ≠ DBDriverSQLite3 → driver ≠ DBDriverPostgres → driver ≠ DBDriverGeneral →
        constructUpsertClusterRuleUserFeedback driver uv um =
          .error (.driverNotSupported driver)) ∧
    (∀ driver db c r u votePtr msgPtr now,
        driver ≠ DBDriverSQLite3 → driver ≠ DBDriverPostgres → driver ≠ DBDriverGeneral →
        addOrUpdateUserFeedbackOnRuleForCluster driver db c r u votePtr msgPtr now =
          .error (.driverNotSupported driver)) ∧
    (∀ driver db org cluster rep now t,
        knownDBDriver driver = true →
        resultIsDriverNotSupported (WriteReportForCluster driver db org cluster rep now t) =
          false) ∧
    (∀ driver db c r u votePtr msgPtr now,
        knownDBDriver driver = true →
        resultIsDriverNotSupported
            (addOrUpdateUserFeedbackOnRuleForCluster driver db c r u votePtr msgPtr now) =
          false) := by
  refine ⟨?_, ?_, ?_, ?_, ?_⟩
  · intro driver db org cluster rep now t h1 h2 h3
    have hk : knownDBDriver driver = false := by simp [knownDBDriver, h1, h2, h3]
    simp [WriteReportForCluster, hk]
  · intro driver uv um h1 h2 h3
    have hk : knownDBDriver driver = false := by simp [knownDBDriver, h1, h2, h3]
    simp [constructUpsertClusterRuleUserFeedback, hk]
  · intro driver db c r u votePtr msgPtr now h1 h2 h3
    have hk : knownDBDriver driver = false := by simp [knownDBDriver, h1, h2, h3]
    simp [addOrUpdateUserFeedbackOnRuleForCluster, constructUpsertClusterRuleUserFeedback, hk]
  · intro driver db org cluster rep now t hd
    unfold WriteReportForCluster
    rw [if_pos hd]
    cases hlook : lookupA db (org, cluster) with
    | none => rfl
    | some row =>
      dsimp only
      split <;> rfl
  · intro driver db c r u votePtr msgPtr now hd
    obtain ⟨q, hq⟩ := constructUpsert_known_ok driver votePtr.isSome msgPtr.isSome hd
    unfold addOrUpdateUserFeedbackOnRuleForCluster
    rw [hq]
    unfold execUpsertClusterRuleUserFeedback
    cases hlook : lookupA db (c, r, u) with
    | none => rfl
    | some row =>
      dsimp only
      split <;> rfl

/-- Witness for C4 at concrete inputs: driver -1 (the value used by the
tests) is rejected, driver sqlite3 is not. -/
theorem claim_C4_witness :
    WriteReportForCluster (-1) [] 1 "c" "rep" ⟨2020, 1, 1, 0, 0, 0⟩ ⟨2020, 1, 1, 0, 0, 0⟩ =
      .error (.driverNotSupported (-1)) ∧
    constructUpsertClusterRuleUserFeedback (-1) true false =
      .error (.driverNotSupported (-1)) ∧
    resultIsDriverNotSupported
        (WriteReportForCluster DBDriverSQLite3 [] 1 "c" "rep"
          ⟨2020, 1, 1, 0, 0, 0⟩ ⟨2020, 1, 1, 0, 0, 0⟩) = false :=
  ⟨claim_C4_driver_unsupported.1 (-1) [] 1 "c" "rep" ⟨2020, 1, 1, 0, 0, 0⟩
      ⟨2020, 1, 1, 0, 0, 0⟩ (by decide) (by decide) (by decide),
    claim_C4_driver_unsupported.2.1 (-1) true false (by decide) (by decide) (by decide),
    claim_C4_driver_unsupported.2.2.2.1 DBDriverSQLite3 [] 1 "c" "rep"
      ⟨2020, 1, 1, 0, 0, 0⟩ ⟨2020, 1, 1, 0, 0, 0⟩ (by decide)⟩

/-- C8 counterexample: `VoteOnRule` performs no validation of the vote value.
Passing the out-of-range vote 2 stores 2, and `GetUserFeedbackOnRule` then
returns user_vote = 2, outside the tri-state set. -/
theorem claim_C8_vote_counterexample :
    VoteOnRule DBDriverSQLite3 [] "c" "r" "u" 2 ⟨2020, 1, 1, 0, 0, 0⟩ =
      .ok [(("c", "r", "u"),
        ⟨"c", "r", "u", "", 2, ⟨2020, 1, 1, 0, 0, 0⟩, ⟨2020, 1, 1, 0, 0, 0⟩⟩)] ∧
    GetUserFeedbackOnRule
        [(("c", "r", "u"),
          ⟨"c", "r", "u", "", 2, ⟨2020, 1, 1, 0, 0, 0⟩, ⟨2020, 1, 1, 0, 0, 0⟩⟩)]
        "c" "r" "u" =
      .ok ⟨"c", "r", "u", "", 2, ⟨2020, 1, 1, 0, 0, 0⟩, ⟨2020, 1, 1, 0, 0, 0⟩⟩ ∧
    ¬((2 : UserVote) = UserVoteDislike ∨ (2 : UserVote) = UserVoteNone ∨
      (2 : UserVote) = UserVoteLike) := by
  refine ⟨by decide, by decide, by decide⟩

/-- C8 (amended): the declared vote constants are −1, 0 and 1; for every vote
value v among them passed to `VoteOnRule`, the value subsequently returned by
`GetUserFeedbackOnRule` equals v and so lies in the tri-state set.  (The code
performs no validation, so arbitrary integer votes are stored verbatim.) -/
theorem claim_C8_vote_amended (driver : Int) (db : FeedbackDB) (c r u : String)
    (v : UserVote) (now : Timestamp) (hd : knownDBDriver driver = true)
    (hv : v = UserVoteDislike ∨ v = UserVoteNone ∨ v = UserVoteLike) :
    ∃ db1,
      VoteOnRule driver db c r u v now = .ok db1 ∧
      (GetUserFeedbackOnRule db1 c r u).map (fun row => row.userVote) = .ok v ∧
      (v = UserVoteDislike ∨ v = UserVoteNone ∨ v = UserVoteLike) := by
  obtain ⟨db1, hw1, hl1⟩ :=
    addOrUpdate_lookup driver db c r u (some v) none now hd (Or.inl rfl)
  refine ⟨db1, hw1, ?_, hv⟩
  simp only [GetUserFeedbackOnRule, hl1, Except.map]
  cases hlook : lookupA db (c, r, u) <;> rfl

/-- Witness for C8 at concrete inputs: the like vote (+1) on the sqlite3
driver. -/
theorem claim_C8_witness :
    knownDBDriver DBDriverSQLite3 = true ∧
    ((1 : UserVote) = UserVoteDislike ∨ (1 : UserVote) = UserVoteNone ∨
      (1 : UserVote) = UserVoteLike) ∧
    (∃ db1,
        VoteOnRule DBDriverSQLite3 [] "c" "r" "u" 1 ⟨2020, 1, 1, 0, 0, 0⟩ = .ok db1 ∧
        (GetUserFeedbackOnRule db1 "c" "r" "u").map (fun row => row.userVote) = .ok 1 ∧
        ((1 : UserVote) = UserVoteDislike ∨ (1 : UserVote) = UserVoteNone ∨
          (1 : UserVote) = UserVoteLike)) :=
  ⟨by decide, by decide,
    claim_C8_vote_amended DBDriverSQLite3 [] "c" "r" "u" 1 ⟨2020, 1, 1, 0, 0, 0⟩
      (by decide) (by decide)⟩

/-- `RuleToggle` is a type for a rule toggle (`storage/rule_toggle.go`). -/
abbrev RuleToggle := Int

/-- `RuleToggleDisable` indicates the rule has been disabled. -/
def RuleToggleDisable : RuleToggle := 1

/-- `RuleToggleEnable` indicates the rule has been (re)enabled. -/
def RuleToggleEnable : RuleToggle := 0

/-- `ClusterRuleToggle` represents a record from `rule_cluster_toggle`
(`storage/rule_toggle.go`). -/
structure ClusterRuleToggle where
  clusterID : String
  ruleID : String
  userID : String
  disabled : RuleToggle
  disabledAt : Timestamp
  enabledAt : Timestamp
  updatedAt : Timestamp
deriving DecidableEq, Repr

/-- The `rule_cluster_toggle` table: rows keyed by
*(cluster_id, rule_id, user_id)*. -/
abbrev ToggleDB := List ((String × String × String) × ClusterRuleToggle)

/-- `ToggleRuleForCluster` as implemented (`storage/rule_toggle.go`): the
body is a stub — it performs no storage operation and returns nil. -/
def ToggleRuleForCluster (db : ToggleDB) (clusterID ruleID userID : String)
    (ruleToggle : RuleToggle) : ToggleDB × Option StorageError :=
  (db, none)

/-- C3: evaluation of the code at the claimed scenario.  `ToggleRuleForCluster`
is a stub: disabling and then re-enabling a rule leaves the toggle table
entirely unchanged — no record is created and no `disabled_at`, `enabled_at`
or `updated_at` timestamp is ever written — so the claimed
record-preserved-timestamp-updated behaviour is not implemented. -/
theorem claim_C3_toggle_stub (db : ToggleDB) (c r u : String) :
    ToggleRuleForCluster db c r u RuleToggleDisable = (db, none) ∧
    ToggleRuleForCluster (ToggleRuleForCluster db c r u RuleToggleDisable).1 c r u
        RuleToggleEnable = (db, none) ∧
    ∀ t : RuleToggle, ToggleRuleForCluster db c r u t = (db, none) :=
  ⟨rfl, rfl, fun _ => rfl⟩

theorem lookupByCluster_setA (db : ReportDB) (k : Nat × String) (v : ReportRow)
    (cluster : String) :
    lookupReportByCluster (setA db k v) cluster =
      (lookupReportByCluster db cluster).map (fun e => if e.1 = k then (k, v) else e) := by
  induction db with
  | nil => simp [lookupReportByCluster, setA]
  | cons e rest ih =>
    by_cases hk : e.1 = k
    · by_cases hc : e.1.2 = cluster
      · rw [hk] at hc
        simp [lookupReportByCluster, setA, hk, hc]
      · rw [hk] at hc
        simp [lookupReportByCluster, setA, hk, hc, ih]
    · by_cases hc : e.1.2 = cluster
      · simp [lookupReportByCluster, setA, hk, hc]
      · simp [lookupReportByCluster, setA, hk, hc, ih]

theorem lookupA_mem_byCluster (db : ReportDB) (org : Nat) (cluster : String) (row : ReportRow)
    (h : lookupA db (org, cluster) = some row) :
    ∃ e0, lookupReportByCluster db cluster = some e0 := by
  induction db with
  | nil => simp [lookupA] at h
  | cons e rest ih =>
    by_cases hk : e.1 = (org, cluster)
    · have hc : e.1.2 = cluster := by rw [hk]
      exact ⟨e, by simp [lookupReportByCluster, hc]⟩
    · rw [lookupA, if_neg hk] at h
      by_cases hc : e.1.2 = cluster
      · exact ⟨e, by simp [lookupReportByCluster, hc]⟩
      · obtain ⟨e0, he0⟩ := ih h
        exact ⟨e0, by simp [lookupReportByCluster, hc, he0]⟩

/-- C6 counterexample: a stale write is a *successful* no-op, so the
unconditional round-trip fails.  With a stored row carrying
last_checked_at 2020-01-02, writing report "NEW" with the older timestamp
2020-01-01 succeeds but changes nothing, and both read paths still return the
old report, not ("NEW", RFC 3339 of 2020-01-01). -/
theorem claim_C6_roundtrip_counterexample :
    WriteReportForCluster DBDriverSQLite3
        [((1, "c"), ⟨"OLD", ⟨2020, 1, 2, 0, 0, 0⟩, ⟨2020, 1, 2, 0, 0, 0⟩⟩)]
        1 "c" "NEW" ⟨2020, 1, 3, 0, 0, 0⟩ ⟨2020, 1, 1, 0, 0, 0⟩ =
      .ok [((1, "c"), ⟨"OLD", ⟨2020, 1, 2, 0, 0, 0⟩, ⟨2020, 1, 2, 0, 0, 0⟩⟩)] ∧
    ReadReportForCluster
        [((1, "c"), ⟨"OLD", ⟨2020, 1, 2, 0, 0, 0⟩, ⟨2020, 1, 2, 0, 0, 0⟩⟩)] 1 "c" ≠
      .ok ("NEW", rfc3339 ⟨2020, 1, 1, 0, 0, 0⟩) ∧
    ReadReportForClusterByClusterName
        [((1, "c"), ⟨"OLD", ⟨2020, 1, 2, 0, 0, 0⟩, ⟨2020, 1, 2, 0, 0, 0⟩⟩)] "c" ≠
      .ok ("NEW", rfc3339 ⟨2020, 1, 1, 0, 0, 0⟩) := by
  refine ⟨by decide, by decide, by decide⟩

/-- C6 (amended): after a successful `WriteReportForCluster(org, cluster, R, T)`
that is not a stale no-op — i.e. when the stored `last_checked_at` for the
key, if any, is not newer than T — reading the same key via
`ReadReportForCluster` or `ReadReportForClusterByClusterName` returns exactly
R together with T formatted as an RFC 3339 string.  (The by-cluster-name
read additionally relies on the cluster column being unique, expressed here
as: the first row matching the cluster, if any, is the row of that key.) -/
theorem claim_C6_roundtrip_amended (driver : Int) (db : ReportDB) (org : Nat)
    (cluster rep : String) (now t : Timestamp)
    (hd : knownDBDriver driver = true)
    (hfresh : ∀ row, lookupA db (org, cluster) = some row →
      row.lastCheckedAt.key ≤ t.key)
    (hby : ∀ e, lookupReportByCluster db cluster = some e → e.1 = (org, cluster)) :
    ∃ db2,
      WriteReportForCluster driver db org cluster rep now t = .ok db2 ∧
      ReadReportForCluster db2 org cluster = .ok (rep, rfc3339 t) ∧
      ReadReportForClusterByClusterName db2 cluster = .ok (rep, rfc3339 t) := by
  cases hlook : lookupA db (org, cluster) with
  | none =>
    refine ⟨((org, cluster), ⟨rep, now, t⟩) :: db, ?_, ?_, ?_⟩
    · simp [WriteReportForCluster, hd, hlook]
    · simp [ReadReportForCluster, lookupA]
    · simp [ReadReportForClusterByClusterName, lookupReportByCluster]
  | some row =>
    have hle := hfresh row hlook
    refine ⟨setA db (org, cluster) ⟨rep, now, t⟩, ?_, ?_, ?_⟩
    · simp [WriteReportForCluster, hd, hlook, hle]
    · simp [ReadReportForCluster, lookupA_setA, hlook]
    · obtain ⟨e0, he0⟩ := lookupA_mem_byCluster db org cluster row hlook
      have hkey := hby e0 he0
      simp [ReadReportForClusterByClusterName, lookupByCluster_setA, he0, hkey]

/-- Witness for C6 at concrete inputs: a fresh write of report "{}" with
timestamp 2020-01-02T00:00:00Z into the empty table. -/
theorem claim_C6_witness :
    knownDBDriver DBDriverSQLite3 = true ∧
    (∃ db2,
        WriteReportForCluster DBDriverSQLite3 [] 1 "84f7eedc-0dd8-49cd-9d4d-f6646df3a5bc"
            "{}" ⟨2020, 1, 3, 0, 0, 0⟩ ⟨2020, 1, 2, 0, 0, 0⟩ = .ok db2 ∧
        ReadReportForCluster db2 1 "84f7eedc-0dd8-49cd-9d4d-f6646df3a5bc" =
          .ok ("{}", rfc3339 ⟨2020, 1, 2, 0, 0, 0⟩) ∧
        ReadReportForClusterByClusterName db2 "84f7eedc-0dd8-49cd-9d4d-f6646df3a5bc" =
          .ok ("{}", rfc3339 ⟨2020, 1, 2, 0, 0, 0⟩)) := by
  refine ⟨by decide, ?_⟩
  exact claim_C6_roundtrip_amended DBDriverSQLite3 [] 1
    "84f7eedc-0dd8-49cd-9d4d-f6646df3a5bc" "{}" ⟨2020, 1, 3, 0, 0, 0⟩ ⟨2020, 1, 2, 0, 0, 0⟩
    (by decide)
    (by intro row h; simp [lookupA] at h)
    (by intro e h; simp [lookupReportByCluster] at h)

/-- A file-system tree: the Go content parser walks a directory of rule
subdirectories with ReadDir/ReadFile; a directory is the list of its named
entries in the order ReadDir yields them. -/
inductive FSEntry where
  | file (content : String)
  | dir (entries : List (String × FSEntry))

/-- Whether a directory entry is a directory (Go FileInfo.IsDir). -/
def FSEntry.isDir : FSEntry → Bool
  | .dir _ => true
  | .file _ => false

/-- Names of the entries of a directory (empty for a plain file). -/
def entryNames : FSEntry → List String
  | .file _ => []
  | .dir entries => entries.map Prod.fst

/-- Lookup of a named entry inside a directory listing. -/
def findEntry : List (String × FSEntry) → String → Option FSEntry
  | [], _ => none
  | e :: rest, name => if e.1 = name then some e.2 else findEntry rest name

/-- Go ioutil.ReadFile of a named file inside a directory. -/
def readFile (d : FSEntry) (name : String) : Except String String :=
  match d with
  | .file _ => .error (name ++ ": not a directory")
  | .dir entries =>
    match findEntry entries name with
    | some (.file content) => .ok content
    | some (.dir _) => .error (name ++ ": is a directory")
    | none => .error (name ++ ": no such file or directory")

/-- Go ioutil.ReadDir of a directory. -/
def readDir : FSEntry → Except String (List (String × FSEntry))
  | .file _ => .error "not a directory"
  | .dir entries => .ok entries

/-- `ErrorKeyMetadata` is the Go representation of the metadata.yaml file
inside an error-key content directory (`content/content.go`). -/
structure ErrorKeyMetadata where
  condition : String
  description : String
  impact : Int
  likelihood : Int
  publishDate : String
  status : String
deriving DecidableEq, Repr

/-- `RuleErrorKeyContent` wraps the content of a single error key
(`content/content.go`). -/
structure RuleErrorKeyContent where
  generic : String
  metadata : ErrorKeyMetadata
deriving DecidableEq, Repr

/-- `RulePluginInfo` is the Go representation of the plugin.yaml file inside
the rule content directory (`content/content.go`). -/
structure RulePluginInfo where
  name : String
  nodeID : String
  productCode : String
  pythonModule : String
deriving DecidableEq, Repr

/-- `RuleContent` wraps all the content available for a rule
(`content/content.go`). -/
structure RuleContent where
  summary : String
  reason : String
  resolution : String
  moreInfo : String
  plugin : RulePluginInfo
  errorKeys : List (String × RuleErrorKeyContent)
deriving DecidableEq, Repr

/-- `RuleContentDirectory` contains content for all available rules in a
directory (`content/content.go`). -/
abbrev RuleContentDirectory := List (String × RuleContent)

/-- The YAML decoder used by the parser (the external go-yaml library's
Unmarshal), abstracted as a pair of decoding functions for the two YAML
schemas appearing in the rule-content layout. -/
structure YamlParsers where
  parseMetadata : String → Except String ErrorKeyMetadata
  parsePlugin : String → Except String RulePluginInfo

/-- The per-subdirectory work of `parseErrorContents`
(`content/content.go`): read generic.md and metadata.yaml from the error-key
subdirectory and unmarshal the metadata. -/
def parseErrorKeyDir (P : YamlParsers) (d : FSEntry) : Except String RuleErrorKeyContent :=
  match readFile d "generic.md" with
  | .error err => .error err
  | .ok generic =>
    match readFile d "metadata.yaml" with
    | .error err => .error err
    | .ok metadataBytes =>
      match P.parseMetadata metadataBytes with
      | .error err => .error err
      | .ok metadata => .ok ⟨generic, metadata⟩

/-- The entry loop of `parseErrorContents` (`content/content.go`):
subdirectory entries are parsed as error-key contents, regular files are
skipped, and the first failure aborts the parse. -/
def parseErrorContentsList (P : YamlParsers) :
    List (String × FSEntry) → Except String (List (String × RuleErrorKeyContent))
  | [] => .ok []
  | q :: rest =>
    if q.2.isDir then
      match parseErrorKeyDir P q.2 with
      | .error err => .error err
      | .ok errContent =>
        match parseErrorContentsList P rest with
        | .error err => .error err
        | .ok others => .ok ((q.1, errContent) :: others)
    else
      parseErrorContentsList P rest

/-- `parseErrorContents` (`content/content.go`): read the rule directory and
parse all subdirectories as error-key contents. -/
def parseErrorContents (P : YamlParsers) (ruleDirPath : FSEntry) :
    Except String (List (String × RuleErrorKeyContent)) :=
  match readDir ruleDirPath with
  | .error err => .error err
  | .ok entries => parseErrorContentsList P entries

/-- `parseRuleContent` (`content/content.go`): parse the error-key
subdirectories, then the four markdown files, then plugin.yaml. -/
def parseRuleContent (P : YamlParsers) (ruleDirPath : FSEntry) : Except String RuleContent :=
  match parseErrorContents P ruleDirPath with
  | .error err => .error err
  | .ok errorContents =>
    match readFile ruleDirPath "summary.md" with
    | .error err => .error err
    | .ok summary =>
      match readFile ruleDirPath "reason.md" with
      | .error err => .error err
      | .ok reason =>
        match readFile ruleDirPath "resolution.md" with
        | .error err => .error err
        | .ok resolution =>
          match readFile ruleDirPath "more_info.md" with
          | .error err => .error err
          | .ok moreInfo =>
            match readFile ruleDirPath "plugin.yaml" with
            | .error err => .error err
            | .ok pluginBytes =>
              match P.parsePlugin pluginBytes with
              | .error err => .error err
              | .ok plugin =>
                .ok ⟨summary, reason, resolution, moreInfo, plugin, errorContents⟩

/-- The entry loop of `ParseRuleContentDir` (`content/content.go`):
subdirectory entries are parsed as rule content, regular files are skipped,
and the first failure aborts the parse. -/
def parseRuleContentDirList (P : YamlParsers) :
    List (String × FSEntry) → Except String RuleContentDirectory
  | [] => .ok []
  | p :: rest =>
    if p.2.isDir then
      match parseRuleContent P p.2 with
      | .error err => .error err
      | .ok ruleContent =>
        match parseRuleContentDirList P rest with
        | .error err => .error err
        | .ok others => .ok ((p.1, ruleContent) :: others)
    else
      parseRuleContentDirList P rest

/-- `ParseRuleContentDir` (`content/content.go`): finds all rule content in a
directory and parses it.  Like the Go function, it returns the catalog
together with an optional error, and every error path returns the empty
catalog alongside the error. -/
def ParseRuleContentDir (P : YamlParsers) (dirPath : FSEntry) :
    RuleContentDirectory × Option String :=
  match readDir dirPath with
  | .error err => ([], some err)
  | .ok entries =>
    match parseRuleContentDirList P entries with
    | .error err => ([], some err)
    | .ok contentDir => (contentDir, none)

/-- Whether an Except value is a success. -/
def exceptOk {ε α : Type} : Except ε α → Bool
  | .ok _ => true
  | .error _ => false

/-- Follows the documented layout from the spec for an error-key
subdirectory: generic.md and metadata.yaml are present and the metadata
parses. -/
def errorKeyLayoutOK (P : YamlParsers) (d : FSEntry) : Bool :=
  exceptOk (readFile d "generic.md") &&
    (match readFile d "metadata.yaml" with
     | .ok mb => exceptOk (P.parseMetadata mb)
     | .error _ => false)

/-- Follows the documented layout from the spec for a rule directory: the
four markdown files and a parsable plugin.yaml are present, and every
subdirectory is a well-formed error-key directory. -/
def ruleDirLayoutOK (P : YamlParsers) (d : FSEntry) : Bool :=
  exceptOk (readFile d "summary.md") && exceptOk (readFile d "reason.md") &&
    exceptOk (readFile d "resolution.md") && exceptOk (readFile d "more_info.md") &&
    (match readFile d "plugin.yaml" with
     | .ok pb => exceptOk (P.parsePlugin pb)
     | .error _ => false) &&
    (match readDir d with
     | .ok entries => entries.all (fun q => !q.2.isDir || errorKeyLayoutOK P q.2)
     | .error _ => false)

/-- Follows the spec's words: the catalog entry for a rule directory holds
the four markdown bodies, the plugin descriptor parsed from plugin.yaml, and
one error-key entry per error-key subdirectory holding its generic.md body
and the metadata parsed from metadata.yaml. -/
def RuleContentMatches (P : YamlParsers) (d : FSEntry) (rc : RuleContent) : Prop :=
  readFile d "summary.md" = .ok rc.summary ∧
  readFile d "reason.md" = .ok rc.reason ∧
  readFile d "resolution.md" = .ok rc.resolution ∧
  readFile d "more_info.md" = .ok rc.moreInfo ∧
  (∃ pb, readFile d "plugin.yaml" = .ok pb ∧ P.parsePlugin pb = .ok rc.plugin) ∧
  (∃ entries, readDir d = .ok entries ∧
    rc.errorKeys.map Prod.fst = (entries.filter (fun q => q.2.isDir)).map Prod.fst ∧
    ∀ q ∈ entries, q.2.isDir = true →
      ∃ ek, lookupA rc.errorKeys q.1 = some ek ∧
        readFile q.2 "generic.md" = .ok ek.generic ∧
        ∃ mb, readFile q.2 "metadata.yaml" = .ok mb ∧
          P.parseMetadata mb = .ok ek.metadata)

theorem exceptOk_eq_true {ε α : Type} (x : Except ε α) (h : exceptOk x = true) :
    ∃ v, x = .ok v := by
  cases x with
  | ok v => exact ⟨v, rfl⟩
  | error e => simp [exceptOk] at h

theorem entryNames_of_readDir (d : FSEntry) (entries : List (String × FSEntry))
    (h : readDir d = .ok entries) : entryNames d = entries.map Prod.fst := by
  cases d with
  | file c => simp [readDir] at h
  | dir es =>
    simp [readDir] at h
    rw [entryNames, h]

theorem parseErrorKeyDir_layout (P : YamlParsers) (d : FSEntry)
    (h : errorKeyLayoutOK P d = true) :
    ∃ ek, parseErrorKeyDir P d = .ok ek ∧
      readFile d "generic.md" = .ok ek.generic ∧
      ∃ mb, readFile d "metadata.yaml" = .ok mb ∧
        P.parseMetadata mb = .ok ek.metadata := by
  rw [errorKeyLayoutOK, Bool.and_eq_true] at h
  obtain ⟨hg1, hm1⟩ := h
  obtain ⟨g, hg⟩ := exceptOk_eq_true _ hg1
  cases hm : readFile d "metadata.yaml" with
  | error e =>
    rw [hm] at hm1
    simp at hm1
  | ok mb =>
    rw [hm] at hm1
    obtain ⟨md, hp⟩ := exceptOk_eq_true _ hm1
    refine ⟨⟨g, md⟩, ?_, hg, mb, rfl, hp⟩
    simp [parseErrorKeyDir, hg, hm, hp]

theorem parseErrorContentsList_keys (P : YamlParsers) (qs : List (String × FSEntry))
    (eks : List (String × RuleErrorKeyContent))
    (h : parseErrorContentsList P qs = .ok eks) :
    eks.map Prod.fst = (qs.filter (fun q => q.2.isDir)).map Prod.fst := by
  induction qs generalizing eks with
  | nil =>
    simp [parseErrorContentsList] at h
    simp [h]
  | cons q rest ih =>
    rw [parseErrorContentsList] at h
    by_cases hdir : q.2.isDir = true
    · rw [if_pos hdir] at h
      cases hek : parseErrorKeyDir P q.2 with
      | error e => rw [hek] at h; cases h
      | ok ec =>
        rw [hek] at h
        cases hrest : parseErrorContentsList P rest with
        | error e => rw [hrest] at h; cases h
        | ok others =>
          rw [hrest] at h
          cases h
          simp [hdir, ih others hrest]
    · rw [if_neg hdir] at h
      have hd : q.2.isDir = false := by
        cases hb : q.2.isDir
        · rfl
        · exact absurd hb hdir
      simp [hd, ih eks h]

theorem parseErrorContentsList_layout (P : YamlParsers) (qs : List (String × FSEntry))
    (h : ∀ q ∈ qs, q.2.isDir = true → errorKeyLayoutOK P q.2 = true) :
    ∃ eks, parseErrorContentsList P qs = .ok eks ∧
      ((qs.map Prod.fst).Nodup →
        ∀ q ∈ qs, q.2.isDir = true →
          ∃ ek, lookupA eks q.1 = some ek ∧
            readFile q.2 "generic.md" = .ok ek.generic ∧
            ∃ mb, readFile q.2 "metadata.yaml" = .ok mb ∧
              P.parseMetadata mb = .ok ek.metadata) := by
  induction qs with
  | nil =>
    refine ⟨[], rfl, ?_⟩
    intro _ q hq
    exact absurd hq (List.not_mem_nil q)
  | cons q0 rest ih =>
    obtain ⟨eks', hparse', hlook'⟩ :=
      ih (fun q hq hdir => h q (List.mem_cons_of_mem q0 hq) hdir)
    by_cases hdir : q0.2.isDir = true
    · obtain ⟨ek0, hek0, hg0, mb0, hm0, hp0⟩ :=
        parseErrorKeyDir_layout P q0.2 (h q0 (List.mem_cons_self q0 rest) hdir)
      refine ⟨(q0.1, ek0) :: eks', ?_, ?_⟩
      · simp [parseErrorContentsList, hdir, hek0, hparse']
      · intro hnodup q hq hqdir
        have hn : q0.1 ∉ rest.map Prod.fst ∧ (rest.map Prod.fst).Nodup := by
          rw [List.map_cons, List.nodup_cons] at hnodup
          exact hnodup
        rcases List.mem_cons.mp hq with hq0 | hqrest
        · subst hq0
          exact ⟨ek0, by simp [lookupA], hg0, mb0, hm0, hp0⟩
        · have hne : ¬ q0.1 = q.1 := fun heq =>
            hn.1 (by rw [heq]; exact List.mem_map_of_mem Prod.fst hqrest)
          obtain ⟨ek, hlk, hgen, mb, hmb, hpm⟩ := hlook' hn.2 q hqrest hqdir
          exact ⟨ek, by simp [lookupA, hne, hlk], hgen, mb, hmb, hpm⟩
    · refine ⟨eks', ?_, ?_⟩
      · simp [parseErrorContentsList, hdir, hparse']
      · intro hnodup q hq hqdir
        have hn : q0.1 ∉ rest.map Prod.fst ∧ (rest.map Prod.fst).Nodup := by
          rw [List.map_cons, List.nodup_cons] at hnodup
          exact hnodup
        rcases List.mem_cons.mp hq with hq0 | hqrest
        · subst hq0
          exact absurd hqdir hdir
        · exact hlook' hn.2 q hqrest hqdir

theorem parseRuleContent_layout (P : YamlParsers) (d : FSEntry)
    (hok : ruleDirLayoutOK P d = true) (hnodup : (entryNames d).Nodup) :
    ∃ rc, parseRuleContent P d = .ok rc ∧ RuleContentMatches P d rc := by
  rw [ruleDirLayoutOK] at hok
  simp only [Bool.and_eq_true] at hok
  obtain ⟨⟨⟨⟨⟨hsum, hrea⟩, hres⟩, hmor⟩, hplug⟩, hsub⟩ := hok
  obtain ⟨summary, hs⟩ := exceptOk_eq_true _ hsum
  obtain ⟨reason, hre⟩ := exceptOk_eq_true _ hrea
  obtain ⟨resolution, hrr⟩ := exceptOk_eq_true _ hres
  obtain ⟨moreInfo, hmi⟩ := exceptOk_eq_true _ hmor
  cases hpy : readFile d "plugin.yaml" with
  | error e =>
    rw [hpy] at hplug
    cases hplug
  | ok pb =>
    rw [hpy] at hplug
    obtain ⟨plugin, hpp⟩ := exceptOk_eq_true _ hplug
    cases hrd : readDir d with
    | error e =>
      rw [hrd] at hsub
      cases hsub
    | ok entries =>
      rw [hrd] at hsub
      have hall : ∀ q ∈ entries, q.2.isDir = true → errorKeyLayoutOK P q.2 = true := by
        intro q hq hqdir
        have := List.all_eq_true.mp hsub q hq
        simpa [hqdir] using this
      obtain ⟨eks, hparse, hlook⟩ := parseErrorContentsList_layout P entries hall
      have hkeys := parseErrorContentsList_keys P entries eks hparse
      have hnames : entries.map Prod.fst = entryNames d :=
        (entryNames_of_readDir d entries hrd).symm
      refine ⟨⟨summary, reason, resolution, moreInfo, plugin, eks⟩, ?_, ?_⟩
      · simp [parseRuleContent, parseErrorContents, hrd, hparse, hs, hre, hrr, hmi, hpy, hpp]
      · exact ⟨hs, hre, hrr, hmi, ⟨pb, hpy, hpp⟩,
          entries, hrd, hkeys, hlook (hnames ▸ hnodup)⟩

theorem parseRuleContentDirList_keys (P : YamlParsers) (es : List (String × FSEntry))
    (cat : RuleContentDirectory) (h : parseRuleContentDirList P es = .ok cat) :
    cat.map Prod.fst = (es.filter (fun p => p.2.isDir)).map Prod.fst := by
  induction es generalizing cat with
  | nil =>
    simp [parseRuleContentDirList] at h
    simp [h]
  | cons p rest ih =>
    rw [parseRuleContentDirList] at h
    by_cases hdir : p.2.isDir = true
    · rw [if_pos hdir] at h
      cases hpc : parseRuleContent P p.2 with
      | error e => rw [hpc] at h; cases h
      | ok rc =>
        rw [hpc] at h
        cases hrest : parseRuleContentDirList P rest with
        | error e => rw [hrest] at h; cases h
        | ok others =>
          rw [hrest] at h
          cases h
          simp [hdir, ih others hrest]
    · rw [if_neg hdir] at h
      have hd : p.2.isDir = false := by
        cases hb : p.2.isDir
        · rfl
        · exact absurd hb hdir
      simp [hd, ih cat h]

theorem parseRuleContentDirList_layout (P : YamlParsers) (es : List (String × FSEntry))
    (h : ∀ p ∈ es, p.2.isDir = true →
      ruleDirLayoutOK P p.2 = true ∧ (entryNames p.2).Nodup) :
    ∃ cat, parseRuleContentDirList P es = .ok cat ∧
      ((es.map Prod.fst).Nodup →
        ∀ p ∈ es, p.2.isDir = true →
          ∃ rc, lookupA cat p.1 = some rc ∧ RuleContentMatches P p.2 rc) := by
  induction es with
  | nil =>
    refine ⟨[], rfl, ?_⟩
    intro _ p hp
    exact absurd hp (List.not_mem_nil p)
  | cons p0 rest ih =>
    obtain ⟨cat', hparse', hlook'⟩ :=
      ih (fun p hp hdir => h p (List.mem_cons_of_mem p0 hp) hdir)
    by_cases hdir : p0.2.isDir = true
    · obtain ⟨hok0, hnodup0⟩ := h p0 (List.mem_cons_self p0 rest) hdir
      obtain ⟨rc0, hrc0, hmatch0⟩ := parseRuleContent_layout P p0.2 hok0 hnodup0
      refine ⟨(p0.1, rc0) :: cat', ?_, ?_⟩
      · simp [parseRuleContentDirList, hdir, hrc0, hparse']
      · intro hnodup p hp hpdir
        have hn : p0.1 ∉ rest.map Prod.fst ∧ (rest.map Prod.fst).Nodup := by
          rw [List.map_cons, List.nodup_cons] at hnodup
          exact hnodup
        rcases List.mem_cons.mp hp with hp0 | hprest
        · subst hp0
          exact ⟨rc0, by simp [lookupA], hmatch0⟩
        · have hne : ¬ p0.1 = p.1 := fun heq =>
            hn.1 (by rw [heq]; exact List.mem_map_of_mem Prod.fst hprest)
          obtain ⟨rc, hlk, hmatch⟩ := hlook' hn.2 p hprest hpdir
          exact ⟨rc, by simp [lookupA, hne, hlk], hmatch⟩
    · refine ⟨cat', ?_, ?_⟩
      · simp [parseRuleContentDirList, hdir, hparse']
      · intro hnodup p hp hpdir
        have hn : p0.1 ∉ rest.map Prod.fst ∧ (rest.map Prod.fst).Nodup := by
          rw [List.map_cons, List.nodup_cons] at hnodup
          exact hnodup
        rcases List.mem_cons.mp hp with hp0 | hprest
        · subst hp0
          exact absurd hpdir hdir
        · exact hlook' hn.2 p hprest hpdir

/-- C7: for every rule-content directory that follows the documented layout
(with the directory-entry names unique, as on a real file system),
`ParseRuleContentDir` succeeds and produces a catalog with one entry per
top-level subdirectory, where each entry holds the four markdown bodies, the
plugin descriptor parsed from plugin.yaml, and one error-key entry per
error-key subdirectory holding its generic.md body and the metadata parsed
from metadata.yaml. -/
theorem claim_C7_parse_rule_content_dir (P : YamlParsers) (es : List (String × FSEntry))
    (hnodup : (es.map Prod.fst).Nodup)
    (hlayout : ∀ p ∈ es, p.2.isDir = true →
      ruleDirLayoutOK P p.2 = true ∧ (entryNames p.2).Nodup) :
    ∃ cat, ParseRuleContentDir P (.dir es) = (cat, none) ∧
      cat.map Prod.fst = (es.filter (fun p => p.2.isDir)).map Prod.fst ∧
      ∀ p ∈ es, p.2.isDir = true →
        ∃ rc, lookupA cat p.1 = some rc ∧ RuleContentMatches P p.2 rc := by
  obtain ⟨cat, hparse, hlook⟩ := parseRuleContentDirList_layout P es hlayout
  refine ⟨cat, ?_, parseRuleContentDirList_keys P es cat hparse, hlook hnodup⟩
  simp [ParseRuleContentDir, readDir, hparse]

/-- C10: the catalog contains entries exactly for directory entries — a
regular file at the top level, or inside a rule directory when collecting
error keys, never produces an entry — and every failing parse yields the
empty catalog together with the error. -/
theorem claim_C10_skip_files_fail_empty :
    (∀ (P : YamlParsers) (root : FSEntry) (cat : RuleContentDirectory) (err : String),
        ParseRuleContentDir P root = (cat, some err) → cat = []) ∧
    (∀ (P : YamlParsers) (es : List (String × FSEntry)) (cat : RuleContentDirectory),
        ParseRuleContentDir P (.dir es) = (cat, none) →
        cat.map Prod.fst = (es.filter (fun p => p.2.isDir)).map Prod.fst) ∧
    (∀ (P : YamlParsers) (qs : List (String × FSEntry))
        (eks : List (String × RuleErrorKeyContent)),
        parseErrorContentsList P qs = .ok eks →
        eks.map Prod.fst = (qs.filter (fun q => q.2.isDir)).map Prod.fst) := by
  refine ⟨?_, ?_, parseErrorContentsList_keys⟩
  · intro P root cat err h
    unfold ParseRuleContentDir at h
    cases hrd : readDir root with
    | error e =>
      rw [hrd] at h
      dsimp only at h
      rw [Prod.mk.injEq] at h
      exact h.1.symm
    | ok entries =>
      rw [hrd] at h
      dsimp only at h
      cases hpl : parseRuleContentDirList P entries with
      | error e =>
        rw [hpl] at h
        dsimp only at h
        rw [Prod.mk.injEq] at h
        exact h.1.symm
      | ok contentDir =>
        rw [hpl] at h
        dsimp only at h
        rw [Prod.mk.injEq] at h
        cases h.2
  · intro P es cat h
    unfold ParseRuleContentDir at h
    dsimp only [readDir] at h
    cases hpl : parseRuleContentDirList P es with
    | error e =>
      rw [hpl] at h
      dsimp only at h
      rw [Prod.mk.injEq] at h
      cases h.2
    | ok contentDir =>
      rw [hpl] at h
      dsimp only at h
      rw [Prod.mk.injEq] at h
      rw [← h.1]
      exact parseRuleContentDirList_keys P es contentDir hpl

/-- A concrete YAML decoder for witnesses: decodes every metadata.yaml to a
fixed metadata record and every plugin.yaml to a fixed plugin descriptor. -/
def sampleYamlParsers : YamlParsers :=
  ⟨fun _ => .ok ⟨"c", "d", 1, 2, "2020-01-01", "active"⟩,
    fun _ => .ok ⟨"n", "id", "ocp", "mod"⟩⟩

/-- A concrete rule directory for witnesses: the four markdown files,
plugin.yaml, and one error-key subdirectory. -/
def sampleRuleDir : FSEntry :=
  .dir [("summary.md", .file "s"), ("reason.md", .file "re"),
    ("resolution.md", .file "ro"), ("more_info.md", .file "mi"),
    ("plugin.yaml", .file "py"),
    ("ek1", .dir [("generic.md", .file "g"), ("metadata.yaml", .file "my")])]

/-- A concrete top-level content listing for witnesses: one stray regular
file and one rule directory. -/
def sampleContentRoot : List (String × FSEntry) :=
  [("stray.md", .file "x"), ("rule1", sampleRuleDir)]

/-- Witness for C7 at concrete inputs: the sample rule-content directory. -/
theorem claim_C7_witness :
    ((sampleContentRoot.map Prod.fst).Nodup ∧
      (∀ p ∈ sampleContentRoot, p.2.isDir = true →
        ruleDirLayoutOK sampleYamlParsers p.2 = true ∧ (entryNames p.2).Nodup)) ∧
    (∃ cat, ParseRuleContentDir sampleYamlParsers (.dir sampleContentRoot) = (cat, none) ∧
      cat.map Prod.fst =
        (sampleContentRoot.filter (fun p => p.2.isDir)).map Prod.fst ∧
      ∀ p ∈ sampleContentRoot, p.2.isDir = true →
        ∃ rc, lookupA cat p.1 = some rc ∧ RuleContentMatches sampleYamlParsers p.2 rc) :=
  ⟨⟨by decide, by decide⟩,
    claim_C7_parse_rule_content_dir sampleYamlParsers sampleContentRoot
      (by decide) (by decide)⟩

/-- Witness for C10 at concrete inputs: a rule directory missing its files
makes the whole parse fail with the empty catalog, and the sample root's
catalog has an entry exactly for its one subdirectory. -/
theorem claim_C10_witness :
    (ParseRuleContentDir sampleYamlParsers (.dir [("r", .dir [])]) =
        ([], some "summary.md: no such file or directory") ∧
      ([] : RuleContentDirectory) = []) ∧
    (ParseRuleContentDir sampleYamlParsers (.dir sampleContentRoot) =
        ([("rule1",
            ⟨"s", "re", "ro", "mi", ⟨"n", "id", "ocp", "mod"⟩,
              [("ek1", ⟨"g", ⟨"c", "d", 1, 2, "2020-01-01", "active"⟩⟩)]⟩)], none) ∧
      [("rule1",
          (⟨"s", "re", "ro", "mi", ⟨"n", "id", "ocp", "mod"⟩,
            [("ek1", ⟨"g", ⟨"c", "d", 1, 2, "2020-01-01", "active"⟩⟩)]⟩ :
            RuleContent))].map Prod.fst =
        (sampleContentRoot.filter (fun p => p.2.isDir)).map Prod.fst) :=
  ⟨⟨by decide,
      claim_C10_skip_files_fail_empty.1 sampleYamlParsers (.dir [("r", .dir [])]) []
        "summary.md: no such file or directory" (by decide)⟩,
    ⟨by decide,
      claim_C10_skip_files_fail_empty.2.1 sampleYamlParsers sampleContentRoot
        [("rule1",
          ⟨"s", "re", "ro", "mi", ⟨"n", "id", "ocp", "mod"⟩,
            [("ek1", ⟨"g", ⟨"c", "d", 1, 2, "2020-01-01", "active"⟩⟩)]⟩)] (by decide)⟩⟩

/-- `ExitStatusOK` means that the tool finished with success (the service
entry point's iota constants). -/
def ExitStatusOK : Nat := 0

/-- `ExitStatusConsumerError` is returned in case of any consumer-related
error. -/
def ExitStatusConsumerError : Nat := 1

/-- `ExitStatusServerError` is returned in case of any REST API
server-related error. -/
def ExitStatusServerError : Nat := 2

/-- Environment of `startConsumer`: the success of each external step it
performs — storage connection, storage Init, the broker-enabled
configuration flag, and consumer construction. -/
structure ConsumerStartOutcome where
  storageConnOK : Bool
  storageInitOK : Bool
  brokerEnabled : Bool
  consumerNewOK : Bool
deriving DecidableEq, Repr

/-- `startConsumer` (service entry point): mirrors the control flow — a
failed storage connection, a failed storage Init, or a failed consumer
construction calls os.Exit(ExitStatusConsumerError); a disabled broker
returns without starting a consumer; otherwise Serve blocks until shutdown
and the function returns.  The result is the os.Exit code, or none when the
function returns normally. -/
def startConsumer (o : ConsumerStartOutcome) : Option Nat :=
  if !o.storageConnOK then some ExitStatusConsumerError
  else if !o.storageInitOK then some ExitStatusConsumerError
  else if !o.brokerEnabled then none
  else if !o.consumerNewOK then some ExitStatusConsumerError
  else none

/-- Environment of `startServer`: the success of the storage connection and
of the HTTP server's Start call. -/
structure ServerStartOutcome where
  storageConnOK : Bool
  serverStartOK : Bool
deriving DecidableEq, Repr

/-- `startServer` (service entry point): a failed storage connection or a
failed server Start calls os.Exit(ExitStatusServerError). -/
def startServer (o : ServerStartOutcome) : Option Nat :=
  if !o.storageConnOK then some ExitStatusServerError
  else if !o.serverStartOK then some ExitStatusServerError
  else none

/-- `startService` (service entry point): the server runs in the current
thread; when `startServer` returns without exiting, the service calls
os.Exit(ExitStatusOK). -/
def startService (so : ServerStartOutcome) : Nat :=
  match startServer so with
  | some code => code
  | none => ExitStatusOK

/-- `stopService` (service entry point): errCode starts at 0 and is
incremented once for each non-nil instance (server, then consumer) whose
Stop/Close returns an error; the process exits with errCode.  An argument of
none models a nil instance, some b a present instance whose shutdown
succeeds iff b. -/
def stopService (serverInstance consumerInstance : Option Bool) : Nat :=
  let errCode : Nat := 0
  let errCode := match serverInstance with
    | some ok => if ok then errCode else errCode + 1
    | none => errCode
  let errCode := match consumerInstance with
    | some ok => if ok then errCode else errCode + 1
    | none => errCode
  errCode

/-- C9: the process exit code is 0 on normal shutdown (the server started
and was stopped normally), ExitStatusConsumerError = 1 exactly when consumer
startup fails (storage connection, storage Init, or consumer construction),
ExitStatusServerError = 2 when HTTP server startup fails, and `stopService`
exits with the count of subsystems whose shutdown failed. -/
theorem claim_C9_exit_codes :
    (∀ o : ConsumerStartOutcome,
        (startConsumer o = some ExitStatusConsumerError ↔
          (o.storageConnOK = false ∨ o.storageInitOK = false ∨
            (o.brokerEnabled = true ∧ o.consumerNewOK = false))) ∧
        (startConsumer o = none ∨ startConsumer o = some ExitStatusConsumerError)) ∧
    (∀ o : ServerStartOutcome,
        (startServer o = some ExitStatusServerError ↔
          (o.storageConnOK = false ∨ o.serverStartOK = false)) ∧
        (startServer o = none ∨ startServer o = some ExitStatusServerError)) ∧
    (∀ so : ServerStartOutcome, startService so = ExitStatusOK ↔ startServer so = none) ∧
    (∀ serverInstance consumerInstance : Option Bool,
        stopService serverInstance consumerInstance =
          (([serverInstance, consumerInstance].filterMap id).filter
            (fun ok => !ok)).length) := by
  refine ⟨?_, ?_, ?_, ?_⟩
  · intro o
    obtain ⟨a, b, c, d⟩ := o
    cases a <;> cases b <;> cases c <;> cases d <;> decide
  · intro o
    obtain ⟨a, b⟩ := o
    cases a <;> cases b <;> decide
  · intro so
    obtain ⟨a, b⟩ := so
    cases a <;> cases b <;> decide
  · intro s c
    rcases s with _ | sb
    · rcases c with _ | cb
      · decide
      · cases cb <;> decide
    · rcases c with _ | cb
      · cases sb <;> decide
      · cases sb <;> cases cb <;> decide

end Aggregator
